import Mathlib

/-!
Verification development for the jlog log-analysis pipeline.

The Rust sources are shallowly embedded:
* Rust `String` / `&str` values are modelled as `RStr`, lists of Unicode
  scalar values (codepoints).  UTF-8 byte order coincides with codepoint
  order, so lexicographic comparison over codepoints models Rust's byte
  comparison on the ASCII data exercised here.
* The `regex` crate patterns used by the code are transcribed into a small
  regular-expression AST (`RE`) together with a backtracking matcher with
  leftmost-first alternation and greedy repetition, the match semantics of
  the `regex` crate for the patterns in this code base.  The Unicode
  extensions of the `\d`, `\w`, `\s` character classes are modelled by their
  ASCII parts; every string on which the matcher is evaluated in this file
  is ASCII.
* `HashMap<String, _>` is modelled as an association list in insertion
  order; the code never relies on iteration order for the properties proved
  here.
* `f64` arithmetic inside the pattern detector is modelled by exact rational
  arithmetic over unnormalized integer fractions (`Frac`), compared by
  cross-multiplication.  All numeric values exercised by the concrete
  theorems below are small dyadic rationals on which `f64` is exact, and
  the ordering facts proved do not depend on rounding.
-/

/-- Rust strings as lists of Unicode scalar values. -/
abbrev RStr := List Nat

/-- Embed a Lean string literal into the model representation. -/
def rstr (s : String) : RStr := s.data.map Char.toNat

/-- ASCII word character, the ASCII part of the regex class `\w`
(letters, digits, underscore). -/
def isWordCp (c : Nat) : Bool :=
  (48 ≤ c && c ≤ 57) || (65 ≤ c && c ≤ 90) || (97 ≤ c && c ≤ 122) || c == 95

/-- ASCII whitespace, the ASCII part of the regex class `\s` and of
`char::is_whitespace`: space, tab, newline, vertical tab, form feed,
carriage return. -/
def isSpaceCp (c : Nat) : Bool :=
  c == 32 || c == 9 || c == 10 || c == 11 || c == 12 || c == 13

/-- Model of `str::trim`: strip leading and trailing whitespace. -/
def trimR (s : RStr) : RStr :=
  ((s.dropWhile isSpaceCp).reverse.dropWhile isSpaceCp).reverse

/-- Model of `str::to_lowercase` restricted to ASCII (all strings compared
case-insensitively in this code base are ASCII). -/
def lowerCp (c : Nat) : Nat := if 65 ≤ c && c ≤ 90 then c + 32 else c

/-- Lowercase a whole string. -/
def lowerR (s : RStr) : RStr := s.map lowerCp

/-- Does `pat` occur at the start of `s`? -/
def prefAt (pat s : RStr) : Bool :=
  match pat, s with
  | [], _ => true
  | _ :: _, [] => false
  | p :: ps, c :: cs => p == c && prefAt ps cs

/-- Model of `str::contains(&str)`: substring occurrence test. -/
def hasSub (s pat : RStr) : Bool :=
  match s with
  | [] => pat.isEmpty
  | _ :: rest => prefAt pat s || hasSub rest pat

/-! ## A small regular-expression engine

The engine implements the fragment of the `regex` crate used by the
sources: character classes (possibly negated), concatenation, alternation
(leftmost-first preference), greedy repetition, word boundaries `\b`, and
capture groups.  Matching is continuation-passing backtracking; `fuel`
bounds the nesting depth of the search and is chosen far above what any
pattern/input pair in this file needs. -/

/-- A character class: a union of inclusive codepoint ranges, possibly
negated (for classes such as `[^\s]`). -/
structure CClass where
  neg : Bool
  ranges : List (Nat × Nat)
deriving DecidableEq

/-- Class membership. -/
def CClass.mem (cl : CClass) (c : Nat) : Bool :=
  let inR := cl.ranges.any (fun p => p.1 ≤ c && c ≤ p.2)
  if cl.neg then !inR else inR

/-- Regular-expression AST. -/
inductive RE where
  | eps
  | cls (c : CClass)
  | cat (a b : RE)
  | alt (a b : RE)
  | star (a : RE)
  | wb
  | grp (n : Nat) (a : RE)
deriving DecidableEq

/-- Single-character literal. -/
def chr (c : Char) : RE := .cls ⟨false, [(c.toNat, c.toNat)]⟩

/-- String literal (concatenation of character literals). -/
def lits (s : String) : RE := (s.data.map chr).foldr .cat .eps

/-- Greedy `r?`. -/
def ropt (r : RE) : RE := .alt r .eps

/-- Greedy `r+`. -/
def rplus (r : RE) : RE := .cat r (.star r)

/-- Exactly `n` copies of `r` (regex `r{n}`). -/
def repN : Nat → RE → RE
  | 0, _ => .eps
  | n + 1, r => .cat r (repN n r)

/-- Greedy chain of at most `n` copies of `r`, preferring more. -/
def optChain : Nat → RE → RE
  | 0, _ => .eps
  | n + 1, r => ropt (.cat r (optChain n r))

/-- Regex `r{m,n}` (greedy). -/
def repRange (m n : Nat) (r : RE) : RE := .cat (repN m r) (optChain (n - m) r)

/-- Regex `r{m,}` (greedy). -/
def repGE (m : Nat) (r : RE) : RE := .cat (repN m r) (.star r)

/-- Captured groups: group index paired with the matched text (innermost
record first; lookups take the first entry). -/
abbrev Caps := List (Nat × RStr)

/-- Backtracking matcher.  `prev` is the character immediately before the
current position (for `\b`), `k` the success continuation.  `fuel` bounds
the nesting depth of the search. -/
def mtch {γ : Type} : Nat → RE → Option Nat → RStr → Caps →
    (Option Nat → RStr → Caps → Option γ) → Option γ
  | 0, _, _, _, _, _ => none
  | fuel + 1, r, prev, s, cp, k =>
    match r with
    | .eps => k prev s cp
    | .cls c =>
      match s with
      | [] => none
      | a :: rest => if c.mem a then k (some a) rest cp else none
    | .cat a b => mtch fuel a prev s cp (fun p2 s2 cp2 => mtch fuel b p2 s2 cp2 k)
    | .alt a b =>
      match mtch fuel a prev s cp k with
      | some res => some res
      | none => mtch fuel b prev s cp k
    | .star a =>
      match mtch fuel a prev s cp (fun p2 s2 cp2 =>
          if s2.length < s.length then mtch fuel (.star a) p2 s2 cp2 k else none) with
      | some res => some res
      | none => k prev s cp
    | .wb =>
      let pw := match prev with | some c => isWordCp c | none => false
      let nw := match s with | c :: _ => isWordCp c | [] => false
      if pw != nw then k prev s cp else none
    | .grp n a => mtch fuel a prev s cp (fun p2 s2 cp2 =>
        k p2 s2 ((n, s.take (s.length - s2.length)) :: cp2))

/-- Depth bound for the matcher; far above the needs of every
pattern/input pair evaluated in this file. -/
def matchFuel : Nat := 100000

/-- Leftmost-first match of `r` at the current position; returns the match
length and the captures. -/
def matchCaps (r : RE) (prev : Option Nat) (s : RStr) : Option (Nat × Caps) :=
  mtch matchFuel r prev s [] (fun _ s2 cp => some (s.length - s2.length, cp))

/-- Anchored full match (`^...$` patterns): the whole input must be
consumed. -/
def matchFull (r : RE) (s : RStr) : Option Caps :=
  mtch matchFuel r none s [] (fun _ s2 cp => if s2.isEmpty then some cp else none)

/-- Look up a capture group. -/
def capGet (cp : Caps) (n : Nat) : Option RStr :=
  match cp.find? (fun q => q.1 == n) with
  | some q => some q.2
  | none => none

/-- Model of `Regex::replace_all` with a literal replacement: scan for the
leftmost match, substitute, and continue after the matched text.  Word
boundaries for later matches are judged against the original text, as in
the `regex` crate. -/
def replaceAllGo (r : RE) (rep : RStr) : Nat → Option Nat → RStr → RStr
  | 0, _, s => s
  | f + 1, prev, s =>
    match matchCaps r prev s with
    | some (len, _) =>
      if len == 0 then
        match s with
        | [] => []
        | c :: rest => c :: replaceAllGo r rep f (some c) rest
      else rep ++ replaceAllGo r rep f (some ((s.take len).getLastD 0)) (s.drop len)
    | none =>
      match s with
      | [] => []
      | c :: rest => c :: replaceAllGo r rep f (some c) rest

/-- Replace every match of `r` in `s` by `rep`. -/
def replaceAll (r : RE) (rep : RStr) (s : RStr) : RStr :=
  replaceAllGo r rep (s.length + 1) none s

/-- Unanchored search, model of `Regex::is_match`. -/
def searchFrom : Nat → RE → Option Nat → RStr → Bool
  | 0, _, _, _ => false
  | f + 1, r, prev, s =>
    match matchCaps r prev s with
    | some _ => true
    | none =>
      match s with
      | [] => false
      | c :: rest => searchFrom f r (some c) rest

/-- Does `r` match anywhere in `s`? -/
def isMatch (r : RE) (s : RStr) : Bool := searchFrom (s.length + 1) r none s

/-! ## The normalizer (`analyzer/filter.rs`)

`NORMALIZE_PATTERNS` transcribed pattern by pattern, in source order, each
paired with its literal replacement. -/

/-- Regex class `\d` (ASCII part). -/
def dC : CClass := ⟨false, [(48, 57)]⟩

/-- Regex class `\w` (ASCII part): letters, digits, underscore. -/
def wC : CClass := ⟨false, [(48, 57), (65, 90), (97, 122), (95, 95)]⟩

/-- Regex class `\s` (ASCII part). -/
def sC : CClass := ⟨false, [(32, 32), (9, 13)]⟩

/-- Regex class `[^\s]` / `\S`. -/
def nsC : CClass := ⟨true, [(32, 32), (9, 13)]⟩

/-- Regex class `[0-9a-fA-F]`. -/
def hexC : CClass := ⟨false, [(48, 57), (97, 102), (65, 70)]⟩

/-- Regex class `[0-9a-f]`. -/
def lhexC : CClass := ⟨false, [(48, 57), (97, 102)]⟩

/-- Regex class `[0-9a-fA-F:]`. -/
def hexColC : CClass := ⟨false, [(48, 57), (97, 102), (65, 70), (58, 58)]⟩

/-- Regex class `[\w.\-]` (ASCII part). -/
def pathC : CClass := ⟨false, [(48, 57), (65, 90), (97, 122), (95, 95), (46, 46), (45, 45)]⟩

/-- Regex class `[:\s]`. -/
def colSpC : CClass := ⟨false, [(58, 58), (32, 32), (9, 13)]⟩

/-- Regex class `[=:\s]`. -/
def eqColSpC : CClass := ⟨false, [(61, 61), (58, 58), (32, 32), (9, 13)]⟩

/-- Regex class `[_\-]`. -/
def usDashC : CClass := ⟨false, [(95, 95), (45, 45)]⟩

/-- Regex class `[A-Za-z]`. -/
def alphaC : CClass := ⟨false, [(65, 90), (97, 122)]⟩

/-- Regex class `[^\[:]` (anything but an opening bracket or a colon),
used by the syslog line matcher. -/
def nBrColC : CClass := ⟨true, [(91, 91), (58, 58)]⟩

/-- Wildcard class `.` in the `(.*)$` tail of the syslog matcher (the
`regex` crate default `.` excludes only newline; the lines fed to it never
contain one). -/
def dotC : CClass := ⟨true, [(10, 10)]⟩

/-- Pattern `[0-9a-fA-F]{8}-[0-9a-fA-F]{4}-[0-9a-fA-F]{4}-[0-9a-fA-F]{4}-[0-9a-fA-F]{12}`. -/
def reUUID : RE :=
  .cat (repN 8 (.cls hexC)) (.cat (chr '-') (.cat (repN 4 (.cls hexC)) (.cat (chr '-')
    (.cat (repN 4 (.cls hexC)) (.cat (chr '-') (.cat (repN 4 (.cls hexC))
      (.cat (chr '-') (repN 12 (.cls hexC)))))))))

/-- Pattern `([0-9a-fA-F]{2}:){5}[0-9a-fA-F]{2}`. -/
def reMAC : RE :=
  .cat (repN 5 (.grp 1 (.cat (repN 2 (.cls hexC)) (chr ':')))) (repN 2 (.cls hexC))

/-- Pattern `[0-9a-fA-F:]{15,}`. -/
def reIPv6 : RE := repGE 15 (.cls hexColC)

/-- Pattern `\d{1,3}\.\d{1,3}\.\d{1,3}\.\d{1,3}`. -/
def reIPv4 : RE :=
  .cat (repRange 1 3 (.cls dC)) (.cat (chr '.') (.cat (repRange 1 3 (.cls dC))
    (.cat (chr '.') (.cat (repRange 1 3 (.cls dC)) (.cat (chr '.') (repRange 1 3 (.cls dC)))))))

/-- Pattern `\d{4}-\d{2}-\d{2}[T ]\d{2}:\d{2}:\d{2}(\.\d+)?Z?`. -/
def reTimeFull : RE :=
  .cat (repN 4 (.cls dC)) (.cat (chr '-') (.cat (repN 2 (.cls dC)) (.cat (chr '-')
    (.cat (repN 2 (.cls dC)) (.cat (.cls ⟨false, [(84, 84), (32, 32)]⟩)
      (.cat (repN 2 (.cls dC)) (.cat (chr ':') (.cat (repN 2 (.cls dC)) (.cat (chr ':')
        (.cat (repN 2 (.cls dC))
          (.cat (ropt (.grp 1 (.cat (chr '.') (rplus (.cls dC))))) (ropt (chr 'Z')))))))))))))

/-- Pattern `\b\d{2}:\d{2}:\d{2}(\.\d+)?\b`. -/
def reTimeBare : RE :=
  .cat .wb (.cat (repN 2 (.cls dC)) (.cat (chr ':') (.cat (repN 2 (.cls dC))
    (.cat (chr ':') (.cat (repN 2 (.cls dC))
      (.cat (ropt (.grp 1 (.cat (chr '.') (rplus (.cls dC))))) .wb))))))

/-- Pattern `\b\d{4}-\d{2}-\d{2}\b`. -/
def reDateIso : RE :=
  .cat .wb (.cat (repN 4 (.cls dC)) (.cat (chr '-') (.cat (repN 2 (.cls dC))
    (.cat (chr '-') (.cat (repN 2 (.cls dC)) .wb)))))

/-- Pattern `\b\d{2}/\d{2}/\d{4}\b`. -/
def reDateSlash : RE :=
  .cat .wb (.cat (repN 2 (.cls dC)) (.cat (chr '/') (.cat (repN 2 (.cls dC))
    (.cat (chr '/') (.cat (repN 4 (.cls dC)) .wb)))))

/-- Pattern `\b[0-9a-f]{12,64}\b`. -/
def reContId : RE := .cat .wb (.cat (repRange 12 64 (.cls lhexC)) .wb)

/-- Pattern `0x[0-9a-fA-F]+`. -/
def reHex0x : RE := .cat (chr '0') (.cat (chr 'x') (rplus (.cls hexC)))

/-- Pattern `\b[0-9a-fA-F]{8,}\b`. -/
def reHexBare : RE := .cat .wb (.cat (repGE 8 (.cls hexC)) .wb)

/-- Pattern `/[\w.\-]+(/[\w.\-]+)+/?`. -/
def rePath : RE :=
  .cat (chr '/') (.cat (rplus (.cls pathC))
    (.cat (rplus (.grp 1 (.cat (chr '/') (rplus (.cls pathC))))) (ropt (chr '/'))))

/-- Pattern `https?://[^\s]+`. -/
def reURL : RE :=
  .cat (lits "http") (.cat (ropt (chr 's')) (.cat (lits "://") (rplus (.cls nsC))))

/-- Pattern `[\w.\-]+@[\w.\-]+\.\w+`. -/
def reEmail : RE :=
  .cat (rplus (.cls pathC)) (.cat (chr '@') (.cat (rplus (.cls pathC))
    (.cat (chr '.') (rplus (.cls wC)))))

/-- Alternation helper: fold a list of alternatives with leftmost-first
preference (first alternative preferred, as in the `regex` crate). -/
def altList : List RE → RE
  | [] => .eps
  | [r] => r
  | r :: rest => .alt r (altList rest)

/-- Pattern `\b\d+(\.\d+)?\s*(B|KB|MB|GB|TB|KiB|MiB|GiB|TiB)\b`. -/
def reSize : RE :=
  .cat .wb (.cat (rplus (.cls dC)) (.cat (ropt (.grp 1 (.cat (chr '.') (rplus (.cls dC)))))
    (.cat (.star (.cls sC))
      (.cat (.grp 2 (altList [lits "B", lits "KB", lits "MB", lits "GB", lits "TB",
        lits "KiB", lits "MiB", lits "GiB", lits "TiB"])) .wb))))

/-- Pattern `\b\d+(\.\d+)?\s*(ns|us|ms|s|sec|min|h|hr|hours?|minutes?|seconds?)\b`. -/
def reDur : RE :=
  .cat .wb (.cat (rplus (.cls dC)) (.cat (ropt (.grp 1 (.cat (chr '.') (rplus (.cls dC)))))
    (.cat (.star (.cls sC))
      (.cat (.grp 2 (altList [lits "ns", lits "us", lits "ms", lits "s", lits "sec",
        lits "min", lits "h", lits "hr", .cat (lits "hour") (ropt (chr 's')),
        .cat (lits "minute") (ropt (chr 's')), .cat (lits "second") (ropt (chr 's'))])) .wb))))

/-- Pattern `[:\s]port\s*\d+`. -/
def rePortPhrase : RE :=
  .cat (.cls colSpC) (.cat (lits "port") (.cat (.star (.cls sC)) (rplus (.cls dC))))

/-- Pattern `:\d{2,5}\b`. -/
def rePortSuffix : RE := .cat (chr ':') (.cat (repRange 2 5 (.cls dC)) .wb)

/-- Pattern `\[(\d+)\]`. -/
def reBrPid : RE := .cat (chr '[') (.cat (.grp 1 (rplus (.cls dC))) (chr ']'))

/-- Pattern `\bpid[=:\s]*\d+`. -/
def rePidEq : RE :=
  .cat .wb (.cat (lits "pid") (.cat (.star (.cls eqColSpC)) (rplus (.cls dC))))

/-- Pattern `\b(session|request|req|tx|transaction|conn|connection)[_\-]?id[=:\s]*\S+`. -/
def reSessId : RE :=
  .cat .wb (.cat (.grp 1 (altList [lits "session", lits "request", lits "req", lits "tx",
      lits "transaction", lits "conn", lits "connection"]))
    (.cat (ropt (.cls usDashC)) (.cat (lits "id")
      (.cat (.star (.cls eqColSpC)) (rplus (.cls nsC))))))

/-- Pattern `\(\d+/\d+\)`. -/
def reCntParen : RE :=
  .cat (chr '(') (.cat (rplus (.cls dC)) (.cat (chr '/') (.cat (rplus (.cls dC)) (chr ')'))))

/-- Pattern `\b\d+/\d+\b`. -/
def reCntBare : RE :=
  .cat .wb (.cat (rplus (.cls dC)) (.cat (chr '/') (.cat (rplus (.cls dC)) .wb)))

/-- Pattern `\b\d+(\.\d+)?%`. -/
def rePct : RE :=
  .cat .wb (.cat (rplus (.cls dC))
    (.cat (ropt (.grp 1 (.cat (chr '.') (rplus (.cls dC))))) (chr '%')))

/-- Pattern `\b\d{5,}\b`. -/
def reNum5 : RE := .cat .wb (.cat (repGE 5 (.cls dC)) .wb)

/-- Pattern `\b\d+\.\d+\.\d+`. -/
def reVer : RE :=
  .cat .wb (.cat (rplus (.cls dC)) (.cat (chr '.') (.cat (rplus (.cls dC))
    (.cat (chr '.') (rplus (.cls dC))))))

/-- The `NORMALIZE_PATTERNS` table: patterns in source order, each with its
replacement string. -/
def NORMALIZE_PATTERNS : List (RE × RStr) :=
  [ (reUUID, rstr "<UUID>"),
    (reMAC, rstr "<MAC>"),
    (reIPv6, rstr "<IPv6>"),
    (reIPv4, rstr "<IP>"),
    (reTimeFull, rstr "<TIME>"),
    (reTimeBare, rstr "<TIME>"),
    (reDateIso, rstr "<DATE>"),
    (reDateSlash, rstr "<DATE>"),
    (reContId, rstr "<ID>"),
    (reHex0x, rstr "<HEX>"),
    (reHexBare, rstr "<HEX>"),
    (rePath, rstr "<PATH>"),
    (reURL, rstr "<URL>"),
    (reEmail, rstr "<EMAIL>"),
    (reSize, rstr "<SIZE>"),
    (reDur, rstr "<DUR>"),
    (rePortPhrase, rstr " port <PORT>"),
    (rePortSuffix, rstr ":<PORT>"),
    (reBrPid, rstr "[<PID>]"),
    (rePidEq, rstr "pid=<PID>"),
    (reSessId, rstr "<SESSID>"),
    (reCntParen, rstr "(<N>/<N>)"),
    (reCntBare, rstr "<N>/<N>"),
    (rePct, rstr "<PCT>"),
    (reNum5, rstr "<N>"),
    (reVer, rstr "<VER>") ]

/-- Pattern `\s+` (`SPACE_RE`). -/
def reSpaces : RE := rplus (.cls sC)

/-- Model of `NormalizeRegex::normalize` (the name `normalize` itself is
taken by Mathlib): run every substitution in table order, collapse
whitespace runs to a single space, and trim. -/
def normalizeMsg (msg : RStr) : RStr :=
  let result := NORMALIZE_PATTERNS.foldl (fun acc pr => replaceAll pr.1 pr.2 acc) msg
  trimR (replaceAll reSpaces (rstr " ") result)

/-! ## Integers, decimal strings, and the civil calendar

Helpers for `str::parse::<u8>` / `::<i64>`, `to_string`, and the
`chrono` timestamp formatting used by `minute_bucket` and the file
reader. -/

/-- ASCII digit test. -/
def isDigitCp (c : Nat) : Bool := 48 ≤ c && c ≤ 57

/-- Value of a nonempty all-digit string. -/
def digitsVal : RStr → Option Nat
  | [] => none
  | s => if s.all isDigitCp then some (s.foldl (fun a c => a * 10 + (c - 48)) 0) else none

/-- Model of `str::parse::<u8>`: optional leading `+`, digits, result
must fit in eight bits. -/
def parseU8 (s : RStr) : Option Nat :=
  let body := match s with
    | 43 :: rest => rest
    | _ => s
  (digitsVal body).bind (fun v => if v ≤ 255 then some v else none)

/-- Model of `str::parse::<i64>`: optional sign, digits, 64-bit signed
range. -/
def parseI64 (s : RStr) : Option Int :=
  match s with
  | 43 :: rest => (digitsVal rest).bind (fun v =>
      if v ≤ 9223372036854775807 then some (v : Int) else none)
  | 45 :: rest => (digitsVal rest).bind (fun v =>
      if v ≤ 9223372036854775808 then some (-(v : Int)) else none)
  | _ => (digitsVal s).bind (fun v =>
      if v ≤ 9223372036854775807 then some (v : Int) else none)

/-- Decimal digits of a natural number (helper with fuel). -/
def natDigitsGo : Nat → Nat → RStr
  | 0, _ => []
  | f + 1, n => if n < 10 then [48 + n] else natDigitsGo f (n / 10) ++ [48 + n % 10]

/-- Model of `to_string` on unsigned integers. -/
def natDigits (n : Nat) : RStr := natDigitsGo (n + 1) n

/-- Model of `to_string` on signed integers. -/
def intToRStr (i : Int) : RStr :=
  if i < 0 then 45 :: natDigits (-i).toNat else natDigits i.toNat

/-- Model of Rust `i64` division, which truncates toward zero. -/
def rustDivI (a b : Int) : Int := Int.tdiv a b

/-- Zero-padded two-digit decimal. -/
def pad2 (n : Nat) : RStr := if n < 10 then [48, 48 + n] else natDigits n

/-- Zero-padded four-digit decimal (`chrono` `%Y` for the years
exercised here). -/
def pad4 (n : Nat) : RStr :=
  let d := natDigits n
  List.replicate (4 - d.length) 48 ++ d

/-- Civil date from a day count relative to 1970-01-01 (standard
proleptic-Gregorian conversion, valid for arbitrary integers). -/
def civilFromDays (z0 : Int) : Int × Int × Int :=
  let z := z0 + 719468
  let era := Int.fdiv z 146097
  let doe := z - era * 146097
  let yoe := Int.ediv (doe - Int.ediv doe 1460 + Int.ediv doe 36524 - Int.ediv doe 146096) 365
  let doy := doe - (365 * yoe + Int.ediv yoe 4 - Int.ediv yoe 100)
  let mp := Int.ediv (5 * doy + 2) 153
  let d := doy - Int.ediv (153 * mp + 2) 5 + 1
  let m := if mp < 10 then mp + 3 else mp - 9
  let y := yoe + era * 400
  (if m ≤ 2 then y + 1 else y, m, d)

/-- Day count relative to 1970-01-01 of a civil date. -/
def daysFromCivil (y0 m d : Int) : Int :=
  let y := if m ≤ 2 then y0 - 1 else y0
  let era := Int.fdiv y 400
  let yoe := y - era * 400
  let mp := if m ≤ 2 then m + 9 else m - 3
  let doy := Int.ediv (153 * mp + 2) 5 + d - 1
  let doe := yoe * 365 + Int.ediv yoe 4 - Int.ediv yoe 100 + doy
  era * 146097 + doe - 719468

/-- Format an epoch-second value as `%Y-%m-%d %H:%M` in UTC, the
`chrono` formatting used by `minute_bucket`.  (`DateTime::from_timestamp`
succeeds for every timestamp exercised in this file; its out-of-range
fallback branch in `minute_bucket` produces a different string for
astronomically large values, which no property here observes.) -/
def fmtEpochMin (secs : Int) : RStr :=
  let days := Int.fdiv secs 86400
  let sod := (secs - days * 86400).toNat
  let c := civilFromDays days
  pad4 c.1.toNat ++ rstr "-" ++ pad2 c.2.1.toNat ++ rstr "-" ++ pad2 c.2.2.toNat ++
    rstr " " ++ pad2 (sod / 3600) ++ rstr ":" ++ pad2 (sod % 3600 / 60)

/-- Format an epoch-second value as `%Y-%m-%d %H:%M:%S` in UTC (used by
the file reader when converting journal entries for display). -/
def fmtEpochSec (secs : Int) : RStr :=
  let days := Int.fdiv secs 86400
  let sod := (secs - days * 86400).toNat
  fmtEpochMin secs ++ rstr ":" ++ pad2 (sod % 60)

/-! ## The entry model (`journalctl.rs`) -/

/-- Model of `JournalEntry`: every field optional, exactly as the serde
derive declares them. -/
structure JournalEntry where
  realtime_timestamp : Option RStr
  hostname : Option RStr
  priority : Option RStr
  syslog_identifier : Option RStr
  pid : Option RStr
  systemd_unit : Option RStr
  message : Option RStr
  transport : Option RStr
deriving DecidableEq

/-- Model of `JournalEntry::priority_num`: parse the priority string as
`u8`, defaulting to 6 (info). -/
def JournalEntry.priority_num (e : JournalEntry) : Nat :=
  match e.priority with
  | some p => (parseU8 p).getD 6
  | none => 6

/-- Model of `JournalEntry::service`: syslog identifier, else systemd
unit, else `"unknown"`. -/
def JournalEntry.service (e : JournalEntry) : RStr :=
  match e.syslog_identifier with
  | some s => s
  | none =>
    match e.systemd_unit with
    | some s => s
    | none => rstr "unknown"

/-- Model of `JournalEntry::msg`. -/
def JournalEntry.msg (e : JournalEntry) : RStr :=
  match e.message with
  | some m => m
  | none => []

/-- Model of `JournalEntry::timestamp_secs`: parse the realtime
timestamp (microseconds) and divide by 1 000 000. -/
def JournalEntry.timestamp_secs (e : JournalEntry) : Option Int :=
  (e.realtime_timestamp.bind parseI64).map (fun us => rustDivI us 1000000)

/-- Model of `JournalEntry::minute_bucket`: floor the timestamp to the
minute and format it as `YYYY-MM-DD HH:MM`. -/
def JournalEntry.minute_bucket (e : JournalEntry) : Option RStr :=
  e.timestamp_secs.map (fun secs => fmtEpochMin (rustDivI secs 60 * 60))

/-- Model of `infer_priority`: the ordered keyword ladder over the
lowercased message. -/
def infer_priority (m : RStr) : Nat :=
  let ml := lowerR m
  if hasSub ml (rstr "panic") || hasSub ml (rstr "fatal") || hasSub ml (rstr "critical") then 2
  else if hasSub ml (rstr "error") || hasSub ml (rstr "failed") || hasSub ml (rstr "failure")
      || hasSub ml (rstr "cannot") || hasSub ml (rstr "unable to")
      || hasSub ml (rstr "segfault") || hasSub ml (rstr "exception") then 3
  else if hasSub ml (rstr "warning") || hasSub ml (rstr "warn")
      || hasSub ml (rstr "timeout") || hasSub ml (rstr "timed out")
      || hasSub ml (rstr "retrying") || hasSub ml (rstr "deprecated")
      || hasSub ml (rstr "denied") || hasSub ml (rstr "refused") then 4
  else if hasSub ml (rstr "started") || hasSub ml (rstr "stopped")
      || hasSub ml (rstr "connected") || hasSub ml (rstr "disconnected")
      || hasSub ml (rstr "loaded") || hasSub ml (rstr "finished") then 5
  else 6

/-- The `SYSLOG_REGEX` pattern
`^([A-Za-z]{3}\s+\d{1,2}\s+\d{2}:\d{2}:\d{2})(?:\.\d+)?\s+(\S+)\s+([^\[:]+)(?:\[(\d+)\])?:\s*(.*)$`. -/
def reSyslog : RE :=
  .cat (.grp 1 (.cat (repN 3 (.cls alphaC)) (.cat (rplus (.cls sC))
    (.cat (repRange 1 2 (.cls dC)) (.cat (rplus (.cls sC))
      (.cat (repN 2 (.cls dC)) (.cat (chr ':') (.cat (repN 2 (.cls dC))
        (.cat (chr ':') (repN 2 (.cls dC)))))))))))
  (.cat (ropt (.cat (chr '.') (rplus (.cls dC))))
  (.cat (rplus (.cls sC))
  (.cat (.grp 2 (rplus (.cls nsC)))
  (.cat (rplus (.cls sC))
  (.cat (.grp 3 (rplus (.cls nBrColC)))
  (.cat (ropt (.cat (chr '[') (.cat (.grp 4 (rplus (.cls dC))) (chr ']'))))
  (.cat (chr ':') (.cat (.star (.cls sC)) (.grp 5 (.star (.cls dotC)))))))))))

/-- Lowercased three-letter month abbreviations, for `chrono`'s `%b`
(which parses case-insensitively). -/
def MONTHS : List (RStr × Nat) :=
  [ (rstr "jan", 1), (rstr "feb", 2), (rstr "mar", 3), (rstr "apr", 4),
    (rstr "may", 5), (rstr "jun", 6), (rstr "jul", 7), (rstr "aug", 8),
    (rstr "sep", 9), (rstr "oct", 10), (rstr "nov", 11), (rstr "dec", 12) ]

/-- Leap-year test (proleptic Gregorian). -/
def isLeap (y : Int) : Bool :=
  (Int.emod y 4 == 0 && Int.emod y 100 != 0) || Int.emod y 400 == 0

/-- Number of days in a month. -/
def daysInMonth (y : Int) (m : Nat) : Nat :=
  match m with
  | 1 => 31 | 2 => if isLeap y then 29 else 28 | 3 => 31 | 4 => 30 | 5 => 31
  | 6 => 30 | 7 => 31 | 8 => 31 | 9 => 30 | 10 => 31 | 11 => 30 | 12 => 31
  | _ => 0

/-- Model of `parse_syslog_timestamp`.  The source formats the current
local year in front of the captured text and parses it with `chrono`
format `"%Y %b %d %H:%M:%S"` in the local time zone; the environment is
made explicit here as the year and a fixed UTC offset in seconds (DST
transitions of a variable-offset zone are not modelled; the concrete
scenario below uses offset 0). -/
def parse_syslog_timestamp (year tz : Int) (ts : RStr) : Option Int :=
  let ml := lowerR (ts.take 3)
  match MONTHS.find? (fun p => p.1 == ml) with
  | none => none
  | some mo =>
    let r1 := (ts.drop 3).dropWhile isSpaceCp
    let dayChars := r1.takeWhile isDigitCp
    if dayChars.length == 0 || 2 < dayChars.length then none
    else
      match digitsVal dayChars with
      | none => none
      | some day =>
        let r2 := (r1.drop dayChars.length).dropWhile isSpaceCp
        match r2 with
        | [h1, h2, 58, m1, m2, 58, s1, s2] =>
          if [h1, h2, m1, m2, s1, s2].all isDigitCp then
            let h := (h1 - 48) * 10 + (h2 - 48)
            let mi := (m1 - 48) * 10 + (m2 - 48)
            let sec := (s1 - 48) * 10 + (s2 - 48)
            if 1 ≤ day && day ≤ daysInMonth year mo.2 && h ≤ 23 && mi ≤ 59 && sec ≤ 59 then
              some (daysFromCivil year mo.2 day * 86400 + h * 3600 + mi * 60 + sec - tz)
            else none
          else none
        | _ => none

/-- Model of `JournalEntry::from_syslog_line` (the environment year and
UTC offset made explicit, see `parse_syslog_timestamp`). -/
def from_syslog_line (year tz : Int) (line : RStr) : Option JournalEntry :=
  match matchFull reSyslog line with
  | none => none
  | some cp =>
    match capGet cp 1 with
    | none => none
    | some tsStr =>
      let hostname := capGet cp 2
      let service := (capGet cp 3).map trimR
      let pid := capGet cp 4
      let message := capGet cp 5
      let timestamp := parse_syslog_timestamp year tz tsStr
      let priority := infer_priority (match message with | some m => m | none => [])
      some { realtime_timestamp := timestamp.map (fun t => intToRStr (t * 1000000)),
             hostname := hostname,
             priority := some (natDigits priority),
             syslog_identifier := service,
             pid := pid,
             systemd_unit := none,
             message := message,
             transport := none }

/-! ## The filter engine (`analyzer/filter.rs`) -/

/-- Model of `FilterCriteria`: a single optional unit string, a priority
ceiling, and an optional compiled pattern. -/
structure FilterCriteria where
  unit : Option RStr
  max_priority : Nat
  pattern : Option RE

/-- Model of `FilterCriteria::matches`: priority check, then the
case-insensitive substring check on the service, then the pattern. -/
def FilterCriteria.matches (f : FilterCriteria) (e : JournalEntry) : Bool :=
  if e.priority_num > f.max_priority then false
  else
    match f.unit with
    | some u =>
      if !hasSub (lowerR e.service) (lowerR u) then false
      else
        match f.pattern with
        | some r => isMatch r e.msg
        | none => true
    | none =>
      match f.pattern with
      | some r => isMatch r e.msg
      | none => true

/-! ## The aggregator (`analyzer/state.rs`)

`HashMap` fields are modelled as association lists in insertion order;
`[usize; 8]` as a function on `Fin 8`.  `get_patterns` can panic in Rust
(string slicing inside `truncate_msg`), so the detector is modelled in
`Except`, with `.error` standing for a panic. -/

/-- Association-list lookup. -/
def alGet {α : Type} : List (RStr × α) → RStr → Option α
  | [], _ => none
  | p :: rest, k => if p.1 = k then some p.2 else alGet rest k

/-- Model of `map.entry(k).or_insert(d)` followed by an update `f`. -/
def alUpsert {α : Type} (k : RStr) (d : α) (f : α → α) :
    List (RStr × α) → List (RStr × α)
  | [] => [(k, f d)]
  | p :: rest => if p.1 = k then (p.1, f p.2) :: rest else p :: alUpsert k d f rest

/-- Model of `*map.entry(k).or_insert(0) += 1`. -/
def alIncr (l : List (RStr × Nat)) (k : RStr) : List (RStr × Nat) :=
  alUpsert k 0 (fun n => n + 1) l

/-- Model of `TimeBucket`. -/
structure TimeBucket where
  total : Nat
  errors : Nat
  warnings : Nat
deriving DecidableEq

/-- Model of `AnalysisState`. -/
structure AnalysisState where
  total_entries : Nat
  entries_by_priority : Fin 8 → Nat
  entries_by_service : List (RStr × Nat)
  error_messages : List (RStr × Nat)
  time_series : List (RStr × TimeBucket)
  message_trends : List (RStr × List (RStr × Nat))

/-- Model of `AnalysisState::new`. -/
def AnalysisState.new : AnalysisState :=
  { total_entries := 0, entries_by_priority := fun _ => 0, entries_by_service := [],
    error_messages := [], time_series := [], message_trends := [] }

/-- Model of `AnalysisState::process_entry`. -/
def AnalysisState.process_entry (s : AnalysisState) (e : JournalEntry) : AnalysisState :=
  let priority := e.priority_num
  let s1 : AnalysisState := { s with
    total_entries := s.total_entries + 1,
    entries_by_priority :=
      if priority < 8 then
        fun i => if (i : Nat) = priority then s.entries_by_priority i + 1
                 else s.entries_by_priority i
      else s.entries_by_priority,
    entries_by_service := alIncr s.entries_by_service e.service }
  let s2 : AnalysisState :=
    match e.minute_bucket with
    | some bucket_key =>
      { s1 with time_series := alUpsert bucket_key ⟨0, 0, 0⟩ (fun b =>
          if priority ≤ 3 then { b with total := b.total + 1, errors := b.errors + 1 }
          else if priority == 4 then { b with total := b.total + 1, warnings := b.warnings + 1 }
          else { b with total := b.total + 1 }) s1.time_series }
    | none => s1
  if priority ≤ 4 then
    let m := normalizeMsg e.msg
    if m.isEmpty then s2
    else
      let s3 : AnalysisState := { s2 with error_messages := alIncr s2.error_messages m }
      match e.minute_bucket with
      | some bucket_key =>
        { s3 with message_trends :=
            alUpsert m [] (fun mb => alIncr mb bucket_key) s3.message_trends }
      | none => s3
  else s2

/-- Fold a list of entries through `process_entry`, starting from the
fresh state (the streaming consumer loop). -/
def processAll (es : List JournalEntry) : AnalysisState :=
  es.foldl AnalysisState.process_entry AnalysisState.new

/-- Lexicographic (byte) order on model strings; on ASCII data this is
exactly Rust's `String` ordering (UTF-8 byte order equals codepoint
order). -/
def rstrLE : RStr → RStr → Bool
  | [], _ => true
  | _ :: _, [] => false
  | a :: as2, b :: bs => if a < b then true else if b < a then false else rstrLE as2 bs

/-- Key order on association-list entries. -/
def keyLE {α : Type} (a b : RStr × α) : Prop := rstrLE a.1 b.1 = true

instance {α : Type} : DecidableRel (@keyLE α) :=
  fun a b => inferInstanceAs (Decidable (rstrLE a.1 b.1 = true))

/-- Model of `AnalysisState::sorted_time_series`: the time series sorted
by bucket key. -/
def AnalysisState.sorted_time_series (s : AnalysisState) : List (RStr × TimeBucket) :=
  List.insertionSort keyLE s.time_series

/-- Model of `Severity`. -/
inductive Severity where
  | Critical
  | Warning
  | Info
deriving DecidableEq

/-- Model of `PatternType`. -/
inductive PatternType where
  | Spike
  | Burst
  | Recurring
  | Increasing
  | HighVolume
deriving DecidableEq

/-- Model of `PatternInfo`. -/
structure PatternInfo where
  pattern_type : PatternType
  message : RStr
  description : RStr
  severity : Severity
  count : Nat
  details : Option RStr
deriving DecidableEq

deriving instance DecidableEq for Except

/-- Model of `severity_order`. -/
def severity_order (s : Severity) : Nat :=
  match s with
  | .Critical => 0
  | .Warning => 1
  | .Info => 2

/-- UTF-8 size of one codepoint. -/
def cpUtf8Len (c : Nat) : Nat :=
  if c < 128 then 1 else if c < 2048 then 2 else if c < 65536 then 3 else 4

/-- Model of `str::len`: UTF-8 byte length. -/
def utf8Len (s : RStr) : Nat := (s.map cpUtf8Len).sum

/-- The maximal prefix worth exactly `n` UTF-8 bytes, or `none` when `n`
falls strictly inside a character (the case in which Rust's `&msg[..n]`
panics). -/
def byteTake : RStr → Nat → Option RStr
  | _, 0 => some []
  | [], _ + 1 => none
  | c :: rest, n + 1 =>
    if cpUtf8Len c ≤ n + 1 then (byteTake rest (n + 1 - cpUtf8Len c)).map (fun t => c :: t)
    else none

/-- Model of `truncate_msg`: identity for short strings, else the 80-byte
prefix plus an ellipsis; slicing off a character boundary is a panic,
modelled as `.error`. -/
def truncate_msg (msg : RStr) (max_len : Nat) : Except RStr RStr :=
  if utf8Len msg ≤ max_len then .ok msg
  else
    match byteTake msg max_len with
    | some pre => .ok (pre ++ rstr "...")
    | none => .error (rstr "byte index is not a char boundary")

/-- Right-hand value of `max_by_key` over bucket counts: the last
maximal entry's key (`unwrap_or_default` gives the empty string). -/
def maxByKeyLast (l : List (RStr × Nat)) : RStr :=
  match l.foldl (fun acc p =>
      match acc with
      | none => some p
      | some q => if q.2 ≤ p.2 then some p else some q) none with
  | some q => q.1
  | none => []

/-- An exact rational as an unnormalized fraction.  Every fraction built
by the detector has a positive denominator (the guarded bucket and error
totals); comparisons below assume that. -/
structure Frac where
  num : Int
  den : Int
deriving DecidableEq

/-- Exact order on fractions with positive denominators, by
cross-multiplication. -/
def Frac.lt (a b : Frac) : Prop := a.num * b.den < b.num * a.den

instance (a b : Frac) : Decidable (Frac.lt a b) :=
  inferInstanceAs (Decidable (a.num * b.den < b.num * a.den))

/-- Multiply a fraction by a natural constant. -/
def Frac.mulNat (a : Frac) (n : Nat) : Frac := ⟨a.num * n, a.den⟩

/-- Floor of a fraction with positive denominator. -/
def Frac.floorI (a : Frac) : Int := Int.fdiv a.num a.den

/-- Banker's rounding, the rounding of Rust's `{:.1}` float formatting on
the exactly-representable values exercised here. -/
def Frac.roundHalfEven (a : Frac) : Int :=
  let f := a.floorI
  let r2 := 2 * (a.num - f * a.den)
  if r2 < a.den then f
  else if a.den < r2 then f + 1
  else if Int.emod f 2 == 0 then f else f + 1

/-- Decimal rendering with one fractional digit (nonnegative part). -/
def fmtQ1pos (n : Nat) : RStr := natDigits (n / 10) ++ rstr "." ++ natDigits (n % 10)

/-- Model of `format!("{:.1}", x)`. -/
def fmtQ1 (q : Frac) : RStr :=
  let n := (q.mulNat 10).roundHalfEven
  if n < 0 then rstr "-" ++ fmtQ1pos (-n).toNat else fmtQ1pos n.toNat

/-- Model of an `f64` to `usize` cast (truncation, saturating at 0). -/
def qToUsize (q : Frac) : Nat := q.floorI.toNat

/-- Trend analysis of a single message inside `get_patterns` (the Spike,
Burst, Recurring and Increasing branches, in source order). -/
def analyzeTrend (num_buckets : Nat) (trends : List (RStr × List (RStr × Nat)))
    (msg : RStr) (total_count : Nat) : Except RStr (List PatternInfo) :=
  match alGet trends msg with
  | none => Except.ok []
  | some buckets =>
    let bucket_counts := buckets.map (fun p => p.2)
    let num_active_buckets := bucket_counts.length
    if num_active_buckets == 0 then Except.ok []
    else do
      let avg : Frac := ⟨total_count, num_buckets⟩
      let max_in_bucket := bucket_counts.foldl Nat.max 0
      let part1 ←
        if 2 ≤ num_active_buckets ∧ Frac.lt (avg.mulNat 3) ⟨max_in_bucket, 1⟩ ∧
            3 ≤ max_in_bucket then do
          let spike_bucket := maxByKeyLast buckets
          let m ← truncate_msg msg 80
          pure [ { pattern_type := PatternType.Spike, message := m,
                   description := rstr "Spike of " ++ natDigits max_in_bucket ++ rstr " at " ++
                     spike_bucket ++ rstr ", avg " ++ fmtQ1 avg ++ rstr "/bucket",
                   severity := if 50 ≤ max_in_bucket then Severity.Critical else Severity.Warning,
                   count := total_count,
                   details := some (rstr "Peak: " ++ natDigits max_in_bucket ++
                     rstr " occurrences in single minute") } ]
        else pure []
      let concentration : Frac := ⟨num_active_buckets, num_buckets⟩
      let part2 ←
        if 5 ≤ total_count ∧ Frac.lt concentration ⟨3, 10⟩ ∧ num_active_buckets ≤ 5 then do
          let m ← truncate_msg msg 80
          pure [ { pattern_type := PatternType.Burst, message := m,
                   description := natDigits total_count ++ rstr " occurrences in only " ++
                     natDigits num_active_buckets ++ rstr " time windows",
                   severity := Severity.Warning,
                   count := total_count,
                   details := some (rstr "Concentrated burst - " ++
                     natDigits (qToUsize (concentration.mulNat 100)) ++ rstr "% of time range") } ]
        else pure []
      let part3 ←
        if 5 ≤ total_count ∧ Frac.lt ⟨2, 5⟩ concentration ∧ 3 ≤ num_active_buckets then do
          let m ← truncate_msg msg 80
          pure [ { pattern_type := PatternType.Recurring, message := m,
                   description := rstr "Recurring " ++ natDigits total_count ++
                     rstr " times across " ++ natDigits (qToUsize (concentration.mulNat 100)) ++
                     rstr "% of time range",
                   severity := Severity.Warning,
                   count := total_count,
                   details := some (rstr "Persistent issue - appears in " ++
                     natDigits num_active_buckets ++ rstr " buckets") } ]
        else pure []
      let part4 ←
        if 4 ≤ num_active_buckets then do
          let sorted_buckets := List.insertionSort keyLE buckets
          let mid := sorted_buckets.length / 2
          let first_half : Nat := ((sorted_buckets.take mid).map (fun p => p.2)).sum
          let second_half : Nat := ((sorted_buckets.drop mid).map (fun p => p.2)).sum
          if first_half * 2 < second_half ∧ 5 ≤ second_half then do
            let m ← truncate_msg msg 80
            pure [ { pattern_type := PatternType.Increasing, message := m,
                     description := rstr "Rate increased from " ++ natDigits first_half ++
                       rstr " to " ++ natDigits second_half ++ rstr " (" ++
                       natDigits (second_half / max first_half 1) ++ rstr "x)",
                     severity := Severity.Warning,
                     count := total_count,
                     details := some (rstr "Frequency increasing over time") } ]
          else pure []
        else pure []
      pure (part1 ++ part2 ++ part3 ++ part4)

/-- All pattern candidates of `get_patterns` before the final sort: the
per-message trend analysis followed by the HighVolume pass. -/
def collectPatterns (s : AnalysisState) : Except RStr (List PatternInfo) :=
  let all_buckets := s.sorted_time_series
  let num_buckets := all_buckets.length
  if num_buckets == 0 then Except.ok []
  else do
    let base ← s.error_messages.foldlM (fun (acc : List PatternInfo) (p : RStr × Nat) => do
      let ps ← analyzeTrend num_buckets s.message_trends p.1 p.2
      pure (acc ++ ps)) []
    let total_errors := (s.error_messages.map (fun p => p.2)).sum
    if 0 < total_errors then
      s.error_messages.foldlM (fun (acc : List PatternInfo) (p : RStr × Nat) => do
        let percentage : Frac := Frac.mulNat ⟨p.2, total_errors⟩ 100
        if Frac.lt ⟨25, 1⟩ percentage ∧ 5 ≤ p.2 then do
          let tm ← truncate_msg p.1 80
          let already_added := acc.any (fun q => q.message == tm)
          if already_added then pure acc
          else
            let hv : PatternInfo :=
              { pattern_type := PatternType.HighVolume, message := tm,
                description := fmtQ1 percentage ++ rstr "% of all errors (" ++
                  natDigits p.2 ++ rstr " occurrences)",
                severity := if Frac.lt ⟨50, 1⟩ percentage then Severity.Critical
                  else Severity.Warning,
                count := p.2,
                details := some (rstr "Dominates error log with " ++ fmtQ1 percentage ++
                  rstr "% share") }
            pure (acc ++ [hv])
        else pure acc) base
    else pure base

/-- The final comparator of `get_patterns`: severity rank first, then
descending count. -/
def PatLE (a b : PatternInfo) : Prop :=
  severity_order a.severity < severity_order b.severity ∨
    (severity_order a.severity = severity_order b.severity ∧ b.count ≤ a.count)

instance : DecidableRel PatLE :=
  fun a b => inferInstanceAs (Decidable (severity_order a.severity < severity_order b.severity ∨
    (severity_order a.severity = severity_order b.severity ∧ b.count ≤ a.count)))

instance : IsTotal PatternInfo PatLE :=
  ⟨by intro a b; unfold PatLE; omega⟩

instance : IsTrans PatternInfo PatLE :=
  ⟨by intro a b c; unfold PatLE; omega⟩

/-- Model of `AnalysisState::get_patterns`: collect the candidates, sort
by severity then descending count (a stable sort, like Rust's
`sort_by`), and keep the first ten.  A panic inside the collection phase
is propagated as `.error`. -/
def AnalysisState.get_patterns (s : AnalysisState) : Except RStr (List PatternInfo) :=
  match collectPatterns s with
  | Except.error e => Except.error e
  | Except.ok raw => Except.ok ((List.insertionSort PatLE raw).take 10)

/-! ## Saved-log writer and file reader (`workers/log_writer.rs`, `workers/file_reader.rs`)

`LogEntry`'s struct definition is not under the given sources, but its five
fields and their types are fully determined by the constructions in
`file_reader.rs` and the field accesses in `log_writer.rs`.  JSON documents
are modelled as flat objects of string/integer fields, the only shape the
writer emits and the only shape the reader's record types can hold. -/

/-- The `LogEntry` display record (fields as constructed in
`file_reader.rs` and consumed in `log_writer.rs`). -/
structure LogEntry where
  line_num : Nat
  timestamp : RStr
  priority : Nat
  service : RStr
  message : RStr
deriving DecidableEq

/-- One JSON scalar. -/
inductive JVal where
  | jstr (s : RStr)
  | jnum (n : Int)
deriving DecidableEq

/-- A flat JSON object. -/
abbrev JObj := List (RStr × JVal)

/-- Hexadecimal digit (lowercase). -/
def hexDigit (n : Nat) : Nat := if n < 10 then 48 + n else 87 + n

/-- JSON string escaping as `serde_json` performs it. -/
def jsonEscapeCp (c : Nat) : RStr :=
  if c == 34 then [92, 34]
  else if c == 92 then [92, 92]
  else if c == 8 then [92, 98]
  else if c == 9 then [92, 116]
  else if c == 10 then [92, 110]
  else if c == 12 then [92, 102]
  else if c == 13 then [92, 114]
  else if c < 32 then [92, 117, 48, 48, hexDigit (c / 16), hexDigit (c % 16)]
  else [c]

/-- Render a JSON string literal. -/
def renderJStr (s : RStr) : RStr := [34] ++ (s.map jsonEscapeCp).flatten ++ [34]

/-- Render a JSON scalar. -/
def renderJVal : JVal → RStr
  | .jstr s => renderJStr s
  | .jnum n => intToRStr n

/-- Comma-join rendered fields. -/
def commaJoin : List RStr → RStr
  | [] => []
  | [x] => x
  | x :: rest => x ++ [44] ++ commaJoin rest

/-- Render a flat JSON object (compact, as `serde_json::to_writer`). -/
def renderJObj (o : JObj) : RStr :=
  [123] ++ commaJoin (o.map (fun p => renderJStr p.1 ++ [58] ++ renderJVal p.2)) ++ [125]

/-- The JSON line `save_logs` writes for one entry (fields in the order of
the `json!` literal; the reader is insensitive to field order). -/
def saveJsonLine (e : LogEntry) : RStr :=
  renderJObj [ (rstr "line", JVal.jnum e.line_num),
               (rstr "timestamp", JVal.jstr e.timestamp),
               (rstr "priority", JVal.jnum e.priority),
               (rstr "service", JVal.jstr e.service),
               (rstr "message", JVal.jstr e.message) ]

/-- The plaintext line `save_logs` writes for one entry:
`"{timestamp} {service}[{priority}]: {message}"`. -/
def savePlainLine (e : LogEntry) : RStr :=
  e.timestamp ++ rstr " " ++ e.service ++ rstr "[" ++ natDigits e.priority ++ rstr "]: " ++
    e.message

/-- JSON whitespace skipping. -/
def skipWs (s : RStr) : RStr :=
  s.dropWhile (fun c => c == 32 || c == 9 || c == 10 || c == 13)

/-- Hex digit value. -/
def hexVal (c : Nat) : Option Nat :=
  if 48 ≤ c && c ≤ 57 then some (c - 48)
  else if 97 ≤ c && c ≤ 102 then some (c - 87)
  else if 65 ≤ c && c ≤ 70 then some (c - 55)
  else none

/-- Parse a JSON string body (after the opening quote). -/
def parseJStrGo : Nat → RStr → RStr → Option (RStr × RStr)
  | 0, _, _ => none
  | f + 1, acc, s =>
    match s with
    | [] => none
    | 34 :: rest => some (acc.reverse, rest)
    | 92 :: e :: rest =>
      if e == 34 then parseJStrGo f (34 :: acc) rest
      else if e == 92 then parseJStrGo f (92 :: acc) rest
      else if e == 47 then parseJStrGo f (47 :: acc) rest
      else if e == 98 then parseJStrGo f (8 :: acc) rest
      else if e == 102 then parseJStrGo f (12 :: acc) rest
      else if e == 110 then parseJStrGo f (10 :: acc) rest
      else if e == 114 then parseJStrGo f (13 :: acc) rest
      else if e == 116 then parseJStrGo f (9 :: acc) rest
      else if e == 117 then
        match rest with
        | h1 :: h2 :: h3 :: h4 :: rest2 =>
          match hexVal h1, hexVal h2, hexVal h3, hexVal h4 with
          | some v1, some v2, some v3, some v4 =>
            parseJStrGo f ((v1 * 4096 + v2 * 256 + v3 * 16 + v4) :: acc) rest2
          | _, _, _, _ => none
        | _ => none
      else none
    | c :: rest => if c < 32 then none else parseJStrGo f (c :: acc) rest

/-- Parse a JSON integer (the only numeric shape the saved records use). -/
def parseJNum (s : RStr) : Option (Int × RStr) :=
  match s with
  | 45 :: rest =>
    let ds := rest.takeWhile isDigitCp
    if ds.isEmpty then none
    else (digitsVal ds).map (fun v => (-(v : Int), rest.drop ds.length))
  | _ =>
    let ds := s.takeWhile isDigitCp
    if ds.isEmpty then none
    else (digitsVal ds).map (fun v => ((v : Int), s.drop ds.length))

/-- Parse one JSON scalar. -/
def parseJVal (s : RStr) : Option (JVal × RStr) :=
  match s with
  | 34 :: rest => (parseJStrGo (rest.length + 1) [] rest).map (fun p => (JVal.jstr p.1, p.2))
  | _ => (parseJNum s).map (fun p => (JVal.jnum p.1, p.2))

/-- Parse the field list of a flat JSON object. -/
def parseFieldsGo : Nat → RStr → JObj → Option (JObj × RStr)
  | 0, _, _ => none
  | f + 1, s, acc =>
    match skipWs s with
    | 34 :: rest =>
      match parseJStrGo (rest.length + 1) [] rest with
      | none => none
      | some (key, rest2) =>
        match skipWs rest2 with
        | 58 :: rest3 =>
          match parseJVal (skipWs rest3) with
          | none => none
          | some (v, rest4) =>
            match skipWs rest4 with
            | 44 :: rest5 => parseFieldsGo f rest5 (acc ++ [(key, v)])
            | 125 :: rest5 => some (acc ++ [(key, v)], rest5)
            | _ => none
        | _ => none
    | _ => none

/-- Parse a whole line as one flat JSON object (model of
`serde_json::from_str` for the record shapes this code reads; the whole
input must be consumed). -/
def parseJObj (s : RStr) : Option JObj :=
  match skipWs s with
  | 123 :: rest =>
    match skipWs rest with
    | 125 :: tail => if (skipWs tail).isEmpty then some [] else none
    | _ =>
      match parseFieldsGo (rest.length + 1) rest [] with
      | some (o, tail) => if (skipWs tail).isEmpty then some o else none
      | none => none
  | _ => none

/-- Field extraction for an `Option<String>` serde field: absent is fine,
a non-string value is a type error. -/
def jGetStr (o : JObj) (k : RStr) : Option (Option RStr) :=
  match o.find? (fun p => p.1 == k) with
  | none => some none
  | some (_, JVal.jstr s) => some (some s)
  | some (_, JVal.jnum _) => none

/-- Model of `serde_json::from_str::<JournalEntry>` on a parsed object:
every renamed field is optional and unknown fields are ignored, so any
flat object whose known fields are strings deserializes. -/
def journalFromJson (o : JObj) : Option JournalEntry := do
  let rt ← jGetStr o (rstr "__REALTIME_TIMESTAMP")
  let hn ← jGetStr o (rstr "_HOSTNAME")
  let pr ← jGetStr o (rstr "PRIORITY")
  let si ← jGetStr o (rstr "SYSLOG_IDENTIFIER")
  let pid ← jGetStr o (rstr "_PID")
  let su ← jGetStr o (rstr "_SYSTEMD_UNIT")
  let ms ← jGetStr o (rstr "MESSAGE")
  let tp ← jGetStr o (rstr "_TRANSPORT")
  some { realtime_timestamp := rt, hostname := hn, priority := pr, syslog_identifier := si,
         pid := pid, systemd_unit := su, message := ms, transport := tp }

/-- The decoded form of `SavedJsonEntry`. -/
structure SavedJsonEntry where
  timestamp : RStr
  priority : Nat
  service : RStr
  message : RStr
deriving DecidableEq

/-- Field extraction for a `#[serde(default)] String` field. -/
def jGetStrD (o : JObj) (k : RStr) : Option RStr :=
  match o.find? (fun p => p.1 == k) with
  | none => some []
  | some (_, JVal.jstr s) => some s
  | some (_, JVal.jnum _) => none

/-- Field extraction for a `#[serde(default)] u8` field. -/
def jGetU8D (o : JObj) (k : RStr) : Option Nat :=
  match o.find? (fun p => p.1 == k) with
  | none => some 0
  | some (_, JVal.jnum n) => if 0 ≤ n ∧ n ≤ 255 then some n.toNat else none
  | some (_, JVal.jstr _) => none

/-- Model of `serde_json::from_str::<SavedJsonEntry>` on a parsed object. -/
def savedJsonFromJson (o : JObj) : Option SavedJsonEntry := do
  let ts ← jGetStrD o (rstr "timestamp")
  let pr ← jGetU8D o (rstr "priority")
  let sv ← jGetStrD o (rstr "service")
  let ms ← jGetStrD o (rstr "message")
  some { timestamp := ts, priority := pr, service := sv, message := ms }

/-- The `SAVED_PLAINTEXT_REGEX` pattern
`^(\d{4}-\d{2}-\d{2}\s+\d{2}:\d{2}:\d{2})\s+(\S+)\[(\d+)\]:\s*(.*)$`. -/
def reSavedPlain : RE :=
  .cat (.grp 1 (.cat (repN 4 (.cls dC)) (.cat (chr '-') (.cat (repN 2 (.cls dC))
    (.cat (chr '-') (.cat (repN 2 (.cls dC)) (.cat (rplus (.cls sC))
      (.cat (repN 2 (.cls dC)) (.cat (chr ':') (.cat (repN 2 (.cls dC))
        (.cat (chr ':') (repN 2 (.cls dC)))))))))))))
  (.cat (rplus (.cls sC))
  (.cat (.grp 2 (rplus (.cls nsC)))
  (.cat (chr '[') (.cat (.grp 3 (rplus (.cls dC)))
  (.cat (chr ']') (.cat (chr ':') (.cat (.star (.cls sC)) (.grp 4 (.star (.cls dotC))))))))))

/-- Model of `file_reader::parse_line`: trim, try the syslog parser, then
the journal-JSON parser for lines starting with `{` (the environment year
and UTC offset of the syslog parser made explicit). -/
def parse_line (year tz : Int) (line : RStr) : Option JournalEntry :=
  let line := trimR line
  if line.isEmpty then none
  else
    match from_syslog_line year tz line with
    | some entry => some entry
    | none =>
      if line.head? == some 123 then (parseJObj line).bind journalFromJson
      else none

/-- Model of `file_reader::parse_saved_line`: trim, try the saved-JSON
record for lines starting with `{`, then the saved-plaintext record. -/
def parse_saved_line (line : RStr) (line_num : Nat) : Option LogEntry :=
  let line := trimR line
  if line.isEmpty then none
  else
    let fromJson : Option LogEntry :=
      if line.head? == some 123 then
        ((parseJObj line).bind savedJsonFromJson).map (fun saved =>
          { line_num := line_num, timestamp := saved.timestamp, priority := saved.priority,
            service := saved.service, message := saved.message })
      else none
    match fromJson with
    | some e => some e
    | none =>
      match matchFull reSavedPlain line with
      | none => none
      | some cp =>
        match capGet cp 1, capGet cp 2, capGet cp 3, capGet cp 4 with
        | some ts, some sv, some pr, some ms =>
          some { line_num := line_num, timestamp := ts, service := sv,
                 priority := (parseU8 pr).getD 6, message := ms }
        | _, _, _, _ => none

/-- Model of `journal_to_log_entry`. -/
def journal_to_log_entry (line_num : Nat) (e : JournalEntry) : LogEntry :=
  let timestamp :=
    match e.timestamp_secs with
    | some secs => fmtEpochSec secs
    | none => []
  { line_num := line_num, timestamp := timestamp, priority := e.priority_num,
    service := e.service, message := e.msg }

/-- The per-line entry construction of `do_read`: `parse_line` first and,
only if it fails, `parse_saved_line`. -/
def doReadLine (year tz : Int) (line : RStr) (lines_read : Nat) : Option LogEntry :=
  match parse_line year tz line with
  | some entry => some (journal_to_log_entry lines_read entry)
  | none => parse_saved_line line lines_read

/-! ## Association-list lemmas and the trend invariant -/

/-- Sum of the counts of an association list (`values().sum()`). -/
def sumVals (l : List (RStr × Nat)) : Nat := (l.map (fun p => p.2)).sum

/-- Sum of a message's per-bucket trend counts (zero when the message has
no trend entry). -/
def trendSum (t : List (RStr × List (RStr × Nat))) (m : RStr) : Nat :=
  sumVals ((alGet t m).getD [])

theorem alGet_alUpsert_self {α : Type} (l : List (RStr × α)) (k : RStr) (d : α) (f : α → α) :
    alGet (alUpsert k d f l) k = some (f ((alGet l k).getD d)) := by
  induction l with
  | nil => simp [alUpsert, alGet]
  | cons p rest ih =>
    by_cases h : p.1 = k
    · simp [alUpsert, alGet, h]
    · simp [alUpsert, alGet, h, ih]

theorem alGet_alUpsert_ne {α : Type} (l : List (RStr × α)) (k k2 : RStr) (d : α) (f : α → α)
    (h : k2 ≠ k) : alGet (alUpsert k d f l) k2 = alGet l k2 := by
  induction l with
  | nil => simp [alUpsert, alGet, Ne.symm h]
  | cons p rest ih =>
    by_cases hp : p.1 = k
    · have hpk2 : p.1 ≠ k2 := by rw [hp]; exact Ne.symm h
      simp [alUpsert, alGet, hp, hpk2, Ne.symm h]
    · by_cases hq : p.1 = k2
      · simp [alUpsert, alGet, hp, hq, h]
      · simp [alUpsert, alGet, hp, hq, ih]

theorem alGet_alIncr_self (l : List (RStr × Nat)) (k : RStr) :
    alGet (alIncr l k) k = some ((alGet l k).getD 0 + 1) :=
  alGet_alUpsert_self l k 0 (fun n => n + 1)

theorem alGet_alIncr_ne (l : List (RStr × Nat)) (k k2 : RStr) (h : k2 ≠ k) :
    alGet (alIncr l k) k2 = alGet l k2 :=
  alGet_alUpsert_ne l k k2 0 (fun n => n + 1) h

theorem sumVals_alIncr (l : List (RStr × Nat)) (k : RStr) :
    sumVals (alIncr l k) = sumVals l + 1 := by
  induction l with
  | nil => simp [alIncr, alUpsert, sumVals]
  | cons p rest ih =>
    by_cases h : p.1 = k
    · simp [alIncr, alUpsert, h, sumVals] at ih ⊢
      omega
    · simp [alIncr, alUpsert, h, sumVals] at ih ⊢
      omega

/-- The C8 invariant: every message's trend counts add up to its
aggregate count (absent on both sides counts as zero). -/
def TrendInv (s : AnalysisState) : Prop :=
  ∀ m : RStr, trendSum s.message_trends m = (alGet s.error_messages m).getD 0

theorem trendInv_new : TrendInv AnalysisState.new := by
  intro m
  simp [AnalysisState.new, trendSum, alGet, sumVals]

set_option maxRecDepth 8000 in
theorem trendInv_step (s : AnalysisState) (e : JournalEntry)
    (he : e.priority_num ≤ 4 → normalizeMsg e.msg ≠ [] → e.minute_bucket.isSome = true)
    (hs : TrendInv s) : TrendInv (s.process_entry e) := by
  intro m
  unfold AnalysisState.process_entry
  by_cases h4 : e.priority_num ≤ 4
  · by_cases hm : (normalizeMsg e.msg).isEmpty
    · cases hbk : e.minute_bucket with
      | none => simpa [h4, hm, hbk] using hs m
      | some bk => simpa [h4, hm, hbk] using hs m
    · have hne : normalizeMsg e.msg ≠ [] := by
        simpa [List.isEmpty_iff] using hm
      have hsome := he h4 hne
      cases hbk : e.minute_bucket with
      | none => rw [hbk] at hsome; simp at hsome
      | some bk =>
        simp only [h4, hm, hbk, if_true, if_false, Bool.false_eq_true]
        by_cases hmm : m = normalizeMsg e.msg
        · subst hmm
          simp only [trendSum, alGet_alUpsert_self, alGet_alIncr_self, Option.getD_some]
          rw [sumVals_alIncr]
          have h0 := hs (normalizeMsg e.msg)
          simp only [trendSum] at h0
          omega
        · simp only [trendSum, alGet_alUpsert_ne _ _ _ _ _ hmm, alGet_alIncr_ne _ _ _ hmm]
          exact hs m
  · cases hbk : e.minute_bucket with
    | none => simpa [h4, hbk] using hs m
    | some bk => simpa [h4, hbk] using hs m

theorem trendInv_processAll (es : List JournalEntry)
    (h : ∀ e ∈ es, e.priority_num ≤ 4 → normalizeMsg e.msg ≠ [] → e.minute_bucket.isSome = true) :
    TrendInv (processAll es) := by
  have gen : ∀ (l : List JournalEntry) (s : AnalysisState), TrendInv s →
      (∀ e ∈ l, e.priority_num ≤ 4 → normalizeMsg e.msg ≠ [] → e.minute_bucket.isSome = true) →
      TrendInv (l.foldl AnalysisState.process_entry s) := by
    intro l
    induction l with
    | nil => intro s hsv _; simpa using hsv
    | cons a rest ih =>
      intro s hsv hl
      simp only [List.foldl_cons]
      exact ih (s.process_entry a) (trendInv_step s a (hl a (List.mem_cons_self a rest)) hsv)
        (fun e hee => hl e (List.mem_cons_of_mem a hee))
  exact gen es AnalysisState.new trendInv_new h

/-! ## Concrete scenario data -/

/-- C1: filter with the unit restriction `"ssh"`, everything else default. -/
def c1filter : FilterCriteria := { unit := some (rstr "ssh"), max_priority := 7, pattern := none }

/-- C1: an entry whose service is `"sshd"`. -/
def c1entry : JournalEntry :=
  { realtime_timestamp := none, hostname := none, priority := some (rstr "3"),
    syslog_identifier := some (rstr "sshd"), pid := none, systemd_unit := none,
    message := none, transport := none }

/-- C4: the default filter (`new(None, 7, None)`). -/
def c4filter : FilterCriteria := { unit := none, max_priority := 7, pattern := none }

/-- C4: an entry whose priority field parses to 8. -/
def c4entry : JournalEntry :=
  { realtime_timestamp := none, hostname := none, priority := some (rstr "8"),
    syslog_identifier := none, pid := none, systemd_unit := none,
    message := none, transport := none }

/-- C5: input whose normalization is not a fixed point of `normalize`. -/
def c5input : RStr := rstr "2024-01-15http://x"

/-- The placeholder tokens the normalizer can introduce. -/
def PLACEHOLDERS : List RStr :=
  [ rstr "<UUID>", rstr "<MAC>", rstr "<IPv6>", rstr "<IP>", rstr "<TIME>", rstr "<DATE>",
    rstr "<ID>", rstr "<HEX>", rstr "<PATH>", rstr "<URL>", rstr "<EMAIL>", rstr "<SIZE>",
    rstr "<DUR>", rstr "<PORT>", rstr "<PID>", rstr "<SESSID>", rstr "<N>", rstr "<PCT>",
    rstr "<VER>" ]

/-- C2: the entry written through the JSON persisted-export form. -/
def c2entry : LogEntry :=
  { line_num := 1, timestamp := rstr "2026-02-11 10:30:45", priority := 3,
    service := rstr "sshd", message := rstr "hi" }

/-- C2: what the file producer actually yields when re-reading that line. -/
def c2reread : LogEntry :=
  { line_num := 1, timestamp := [], priority := 6, service := rstr "unknown", message := [] }

/-- C3: the scenario line stamped in minute `10:00`. -/
def c3lineA : RStr :=
  rstr "Jan 10 10:00:01 host sshd[100]: Failed password for root from 10.0.0.5 port 22"

/-- C3: the scenario line stamped in minute `10:01`. -/
def c3lineB : RStr :=
  rstr "Jan 10 10:01:01 host sshd[100]: Failed password for root from 10.0.0.5 port 22"

/-- C3: the scenario message. -/
def c3msg : RStr := rstr "Failed password for root from 10.0.0.5 port 22"

/-- C3: its normalized form. -/
def c3norm : RStr := rstr "Failed password for root from <IP> port <PORT>"

/-- C3: the parsed entry for line A (year 2025, UTC offset 0). -/
def c3entryA : JournalEntry :=
  { realtime_timestamp := some (rstr "1736503201000000"), hostname := some (rstr "host"),
    priority := some (rstr "3"), syslog_identifier := some (rstr "sshd"),
    pid := some (rstr "100"), systemd_unit := none, message := some c3msg, transport := none }

/-- C3: the parsed entry for line B. -/
def c3entryB : JournalEntry :=
  { realtime_timestamp := some (rstr "1736503261000000"), hostname := some (rstr "host"),
    priority := some (rstr "3"), syslog_identifier := some (rstr "sshd"),
    pid := some (rstr "100"), systemd_unit := none, message := some c3msg, transport := none }

/-- C3: six entries in each of the two minutes. -/
def c3entries : List JournalEntry := List.replicate 6 c3entryA ++ List.replicate 6 c3entryB

/-- C3: the aggregation state after feeding the twelve entries. -/
def c3state : AnalysisState := processAll c3entries

/-- C8/C9: an error entry with a derivable minute bucket. -/
def c8entry : JournalEntry :=
  { realtime_timestamp := some (rstr "60000000"), hostname := none,
    priority := some (rstr "3"), syslog_identifier := some (rstr "disk"), pid := none,
    systemd_unit := none, message := some (rstr "disk trouble"), transport := none }

/-- C9: a minimal entry with priority 3 and no message. -/
def c9entry : JournalEntry :=
  { realtime_timestamp := none, hostname := none, priority := some (rstr "3"),
    syslog_identifier := none, pid := none, systemd_unit := none,
    message := none, transport := none }

/-- C10: a normalized message of 27 three-byte characters (81 bytes), so
byte 80 falls inside the last character. -/
def c10msg : RStr := List.replicate 27 8364

/-- C10: a state whose Burst branch fires for `c10msg` (count 5,
concentration 1/4, one active bucket out of four). -/
def c10state : AnalysisState :=
  { total_entries := 8, entries_by_priority := fun _ => 0, entries_by_service := [],
    error_messages := [(c10msg, 5)],
    time_series := [ (rstr "2025-01-10 10:00", ⟨5, 5, 0⟩), (rstr "2025-01-10 10:01", ⟨1, 0, 0⟩),
                     (rstr "2025-01-10 10:02", ⟨1, 0, 0⟩), (rstr "2025-01-10 10:03", ⟨1, 0, 0⟩) ],
    message_trends := [(c10msg, [(rstr "2025-01-10 10:00", 5)])] }

/-! ## Claim theorems -/

set_option maxRecDepth 100000

/-- C1 (counterexample): the claim says an entry whose service merely
contains the filter text as a substring is rejected; here the filter
restriction is `"ssh"`, the entry's service is `"sshd"` (not equal to
`"ssh"`), yet `matches` accepts the entry. -/
theorem c1_counterexample :
    c1filter.unit = some (rstr "ssh") ∧
    c1entry.service = rstr "sshd" ∧
    c1entry.service ≠ rstr "ssh" ∧
    c1filter.matches c1entry = true := by decide

/-- C1 (amended): for a filter whose unit restriction is set and an entry
that passes the priority and pattern checks, `matches` accepts exactly
when the lowercased filter text occurs as a substring of the lowercased
service (case-insensitive substring match, not a case-sensitive
full-string set membership). -/
theorem c1_service_substring (f : FilterCriteria) (e : JournalEntry) (u : RStr)
    (hu : f.unit = some u)
    (hp : e.priority_num ≤ f.max_priority)
    (hpat : (match f.pattern with | some r => isMatch r e.msg | none => true) = true) :
    (f.matches e = true ↔ hasSub (lowerR e.service) (lowerR u) = true) := by
  unfold FilterCriteria.matches
  rw [hu]
  have hnp : ¬ (e.priority_num > f.max_priority) := by omega
  by_cases hsub : hasSub (lowerR e.service) (lowerR u)
  · simp [hnp, hsub, hpat]
  · simp [hnp, hsub]

/-- C1 (witness): the amended theorem applied to the concrete filter and
entry above. -/
theorem c1_service_substring_witness :
    c1filter.matches c1entry = true ↔
      hasSub (lowerR c1entry.service) (lowerR (rstr "ssh")) = true :=
  c1_service_substring c1filter c1entry (rstr "ssh") rfl (by decide) (by decide)

/-- C4 (counterexample): the claim says the default configuration admits
every entry, including one whose priority field parses outside 0–7; an
entry with priority string `"8"` parses to 8 and is rejected. -/
theorem c4_counterexample :
    c4entry.priority_num = 8 ∧ c4filter.matches c4entry = false := by decide

/-- C4 (amended): the default configuration admits exactly the entries
whose numeric priority is at most 7; entries whose priority string parses
(as `u8`) to 8–255 are rejected, while unparseable priorities default to
6 and are admitted. -/
theorem c4_default_admits (e : JournalEntry) :
    c4filter.matches e = true ↔ e.priority_num ≤ 7 := by
  unfold FilterCriteria.matches c4filter
  by_cases h : e.priority_num ≤ 7
  · have hnp : ¬ (e.priority_num > 7) := by omega
    simp [hnp, h]
  · have hgt : e.priority_num > 7 := by omega
    simp [hgt, h]

/-- C6 (counterexample): the claim's universal clause says every message
containing an error-tier and a warning-tier keyword infers priority 3;
`"critical error warning"` contains both, yet the critical tier fires
first and the result is 2. -/
theorem c6_counterexample :
    hasSub (lowerR (rstr "critical error warning")) (rstr "error") = true ∧
    hasSub (lowerR (rstr "critical error warning")) (rstr "warning") = true ∧
    infer_priority (rstr "critical error warning") = 2 ∧
    infer_priority (rstr "critical error warning") ≠ 3 := by decide

/-- C6 (amended): the keyword ladder fires in order — any critical-tier
keyword gives 2, and a message with an error-tier keyword and no
critical-tier keyword gives 3 (in particular a message with both an
error-tier and a warning-tier keyword, and no critical-tier keyword,
infers 3). -/
theorem c6_ladder :
    (∀ m : RStr,
      (hasSub (lowerR m) (rstr "panic") || hasSub (lowerR m) (rstr "fatal") ||
       hasSub (lowerR m) (rstr "critical")) = true → infer_priority m = 2) ∧
    (∀ m : RStr,
      (hasSub (lowerR m) (rstr "panic") || hasSub (lowerR m) (rstr "fatal") ||
       hasSub (lowerR m) (rstr "critical")) = false →
      (hasSub (lowerR m) (rstr "error") || hasSub (lowerR m) (rstr "failed") ||
       hasSub (lowerR m) (rstr "failure") || hasSub (lowerR m) (rstr "cannot") ||
       hasSub (lowerR m) (rstr "unable to") || hasSub (lowerR m) (rstr "segfault") ||
       hasSub (lowerR m) (rstr "exception")) = true →
      infer_priority m = 3) := by
  refine ⟨?_, ?_⟩
  · intro m h1
    unfold infer_priority
    simp only [h1, if_true]
  · intro m h1 h2
    unfold infer_priority
    simp only [h1, h2, if_true, Bool.false_eq_true, if_false]

/-- C6 (witness): the ladder theorem applied to concrete messages. -/
theorem c6_ladder_witness :
    infer_priority (rstr "fatal mistake") = 2 ∧
    infer_priority (rstr "disk error, warning issued") = 3 :=
  ⟨c6_ladder.1 (rstr "fatal mistake") (by decide),
   c6_ladder.2 (rstr "disk error, warning issued") (by decide) (by decide)⟩

/-- C7: whenever the pattern-detection pass returns (does not panic), its
result is sorted with Critical signals first, then Warning, then Info,
descending count within equal severity, and contains at most ten
signals. -/
theorem c7_patterns_sorted (s : AnalysisState) (l : List PatternInfo)
    (h : s.get_patterns = Except.ok l) :
    List.Sorted PatLE l ∧ l.length ≤ 10 := by
  unfold AnalysisState.get_patterns at h
  cases hc : collectPatterns s with
  | error e => rw [hc] at h; cases h
  | ok raw =>
    rw [hc] at h
    cases h
    constructor
    · exact List.Pairwise.sublist (List.take_sublist _ _) (List.sorted_insertionSort PatLE raw)
    · exact List.length_take_le 10 (List.insertionSort PatLE raw)

/-- C7 (witness): on the fresh state the pass returns the empty list,
which is sorted and within the cap. -/
theorem c7_patterns_sorted_witness :
    List.Sorted PatLE ([] : List PatternInfo) ∧ ([] : List PatternInfo).length ≤ 10 :=
  c7_patterns_sorted AnalysisState.new [] rfl

/-- C8: along any run in which every counted entry (priority at most 4,
non-empty normalized message) carries a derivable minute bucket, each
message's per-bucket trend counts sum to its aggregate count. -/
theorem c8_trend_invariant (es : List JournalEntry)
    (h : ∀ e ∈ es, e.priority_num ≤ 4 → normalizeMsg e.msg ≠ [] → e.minute_bucket.isSome = true)
    (m : RStr) (c : Nat)
    (hm : alGet (processAll es).error_messages m = some c) :
    trendSum (processAll es).message_trends m = c := by
  have hinv := trendInv_processAll es h m
  rw [hm] at hinv
  simpa using hinv

/-- C8 (witness): two copies of a bucketed error entry give aggregate
count 2 and trend sum 2. -/
theorem c8_trend_invariant_witness :
    trendSum (processAll [c8entry, c8entry]).message_trends (rstr "disk trouble") = 2 :=
  c8_trend_invariant [c8entry, c8entry] (by decide) (rstr "disk trouble") 2 (by decide)

/-- C9: processing an entry with priority 0–7 increments exactly that
priority slot and the total, leaving every other slot unchanged. -/
theorem c9_priority_histogram (s : AnalysisState) (e : JournalEntry)
    (h : e.priority_num ≤ 7) :
    (s.process_entry e).total_entries = s.total_entries + 1 ∧
    (∀ i : Fin 8, (i : Nat) = e.priority_num →
      (s.process_entry e).entries_by_priority i = s.entries_by_priority i + 1) ∧
    (∀ i : Fin 8, (i : Nat) ≠ e.priority_num →
      (s.process_entry e).entries_by_priority i = s.entries_by_priority i) := by
  have hlt : e.priority_num < 8 := by omega
  have hfield : (s.process_entry e).entries_by_priority =
      (fun i : Fin 8 => if (i : Nat) = e.priority_num then s.entries_by_priority i + 1
        else s.entries_by_priority i) ∧
      (s.process_entry e).total_entries = s.total_entries + 1 := by
    unfold AnalysisState.process_entry
    by_cases h4 : e.priority_num ≤ 4 <;>
      cases hbk : e.minute_bucket <;>
        by_cases hm : (normalizeMsg e.msg).isEmpty <;>
          simp [h4, hbk, hm, hlt]
  refine ⟨hfield.2, ?_, ?_⟩
  · intro i hi
    rw [hfield.1]
    simp [hi]
  · intro i hi
    rw [hfield.1]
    simp [hi]

/-- C9 (witness): the frame property applied to the fresh state and a
priority-3 entry, checked on slot 3 and on the untouched slot 0. -/
theorem c9_priority_histogram_witness :
    (AnalysisState.new.process_entry c9entry).total_entries =
      AnalysisState.new.total_entries + 1 ∧
    (AnalysisState.new.process_entry c9entry).entries_by_priority (3 : Fin 8) =
      AnalysisState.new.entries_by_priority (3 : Fin 8) + 1 ∧
    (AnalysisState.new.process_entry c9entry).entries_by_priority (0 : Fin 8) =
      AnalysisState.new.entries_by_priority (0 : Fin 8) :=
  ⟨(c9_priority_histogram AnalysisState.new c9entry (by decide)).1,
   (c9_priority_histogram AnalysisState.new c9entry (by decide)).2.1 (3 : Fin 8) (by decide),
   (c9_priority_histogram AnalysisState.new c9entry (by decide)).2.2 (0 : Fin 8) (by decide)⟩

/-- C2: the JSON persisted-export line for an entry with priority 3,
service `sshd`, message `hi` is consumed by `parse_line`'s journal-JSON
branch (serde ignores unknown fields and every `JournalEntry` field is
optional), so the dedicated saved-JSON decoder is never reached and the
re-read entry carries priority 6, service `unknown`, and an empty
message.  `parse_saved_line` alone would have round-tripped the record
exactly, which is what its documentation promises. -/
theorem c2_saved_json_reread :
    saveJsonLine c2entry =
      rstr "\x7b\"line\":1,\"timestamp\":\"2026-02-11 10:30:45\",\"priority\":3,\"service\":\"sshd\",\"message\":\"hi\"\x7d" ∧
    doReadLine 2026 0 (saveJsonLine c2entry) 1 = some c2reread ∧
    parse_saved_line (saveJsonLine c2entry) 1 =
      some { line_num := 1, timestamp := c2entry.timestamp, priority := c2entry.priority,
             service := c2entry.service, message := c2entry.message } ∧
    c2reread.priority ≠ c2entry.priority ∧
    c2reread.service ≠ c2entry.service ∧
    c2reread.message ≠ c2entry.message := by decide

/-- C5 (counterexample): normalization is not idempotent — replacing the
URL exposes a word boundary after `2024-01-15`, so the date pattern,
which comes earlier in the cascade, fires only on the second
application. -/
theorem c5_counterexample :
    normalizeMsg c5input = rstr "2024-01-15<URL>" ∧
    normalizeMsg (normalizeMsg c5input) = rstr "<DATE><URL>" ∧
    normalizeMsg (normalizeMsg c5input) ≠ normalizeMsg c5input := by decide

/-- C5 (amended): every placeholder token the cascade introduces is
itself a fixed point of `normalize` (no placeholder is rewritten into
something else), even though full idempotence fails. -/
theorem c5_placeholders_fixed :
    PLACEHOLDERS.all (fun p => normalizeMsg p == p) = true := by decide

/-- C10: the message of 27 three-byte characters is 81 bytes long, byte
index 80 is not a character boundary, and the detection pass on a state
whose Burst branch fires for it panics inside `truncate_msg` instead of
returning. -/
theorem c10_truncate_panics :
    utf8Len c10msg = 81 ∧
    byteTake c10msg 80 = none ∧
    c10state.get_patterns = Except.error (rstr "byte index is not a char boundary") := by decide

/-- C3 (counterexample): the twelve entries spread over two minutes give
a detection pass whose output is a single HighVolume signal — there is no
Recurring signal, because the message is active in only 2 buckets and the
Recurring branch requires at least 3. -/
theorem c3_no_recurring :
    from_syslog_line 2025 0 c3lineA = some c3entryA ∧
    from_syslog_line 2025 0 c3lineB = some c3entryB ∧
    (c3state.get_patterns).map (fun l => l.map (fun p : PatternInfo => p.pattern_type)) =
      Except.ok [PatternType.HighVolume] := by decide

/-- C3 (amended): the scenario yields inferred priority 3 for every
entry, `countsByPriority[3] = 12`, exactly one normalized message with
aggregate count 12, two time buckets with six errors each, and a
detection pass containing no Spike and no Recurring signal but exactly
one HighVolume signal (Critical, 100 percent of the error volume) for
that message. -/
theorem c3_scenario :
    c3entryA.priority_num = 3 ∧ c3entryB.priority_num = 3 ∧
    normalizeMsg c3msg = c3norm ∧
    c3state.total_entries = 12 ∧
    c3state.entries_by_priority (3 : Fin 8) = 12 ∧
    c3state.error_messages = [(c3norm, 12)] ∧
    c3state.sorted_time_series =
      [ (rstr "2025-01-10 10:00", ⟨6, 6, 0⟩), (rstr "2025-01-10 10:01", ⟨6, 6, 0⟩) ] ∧
    (c3state.get_patterns).map
        (fun l => l.map (fun p : PatternInfo => (p.pattern_type, p.severity, p.count))) =
      Except.ok [(PatternType.HighVolume, Severity.Critical, 12)] := by decide
